import Mathlib

/-!
Shallow embedding of `src/controller/auth.controller.ts` from
express-ts-auth-service: the signup / login / logout / refresh handlers,
the refresh-token session store, and the token codec, together with
theorems about the refresh-token rotation and reuse-detection protocol.

Modelling conventions, matching the source:
* The Prisma tables (`user`, `refreshToken`, `emailVerificationToken`) become
  lists inside a `State` record; `findUnique` is `List.find?`, `delete` and
  `deleteMany` are `List.filter`.
* JWTs become a `Token` record carrying the subject id (`userId`), a
  freshness nonce (standing for the iat/expiry claims that make every minted
  JWT string distinct), and a `valid` flag abstracting the outcome of
  `jwt.verify` (signature/expiry check); `jwt.verify` with the refresh secret
  becomes `verifyToken`, returning the `userId` of the payload on success.
* `argon2.hash` / `argon2.verify` are external collaborators specified only
  at their boolean interface; they are modelled as identity / string equality.
* `uuidv4` / token minting draw from a monotone counter `ctr` in the state.
* The Express `Response` becomes a `Res` record logging, in order, every
  `res.sendStatus` / `res.status(..).json(..)` / `res.json({accessToken})`
  call made by the handler, plus the cookie actions.  The client-visible
  status is the first send (`resStatus`).  Two runtime subtleties are kept
  faithful: the unverified-email branch of login uses
  `res.send(401).json(...)`, whose chained `.json` throws
  ERR_HTTP_HEADERS_SENT after the 401 is flushed and thereby aborts the
  handler before the password check ever runs; and the swallowed `.catch`
  on the rotation insert lets `handleRefresh` answer 200 with the access
  token even when the new session was not persisted.
* Store-write failure of `prismaClient.refreshToken.create` in `handleRefresh`
  (the only create the source guards with a `.catch`) is an environment
  choice, passed in as the `insertFails` flag.
-/

/-- A row of the Prisma `user` table (external user collaborator). -/
structure User where
  id : Nat
  name : String
  email : String
  password : String
  emailVerified : Bool
deriving DecidableEq

/-- A signed JWT: subject id, a freshness nonce standing for the claims that
make distinct mints distinct strings, and the `jwt.verify` outcome. -/
structure Token where
  userId : Nat
  nonce : Nat
  valid : Bool
deriving DecidableEq

/-- A row of the Prisma `refreshToken` table: the session store. -/
structure Session where
  token : Token
  userId : Nat
deriving DecidableEq

/-- A row of the Prisma `emailVerificationToken` table. -/
structure EmailVerificationToken where
  token : Nat
  userId : Nat
deriving DecidableEq

/-- The durable state touched by the controller, plus the freshness counter
feeding `uuidv4` and token minting. -/
structure State where
  users : List User
  store : List Session
  emailTokens : List EmailVerificationToken
  sentEmails : List (String × Nat)
  ctr : Nat
deriving DecidableEq

/-- Body of one response send. -/
inductive SendBody
  | empty
  | msg (m : String)
  | token (t : Token)
deriving DecidableEq

/-- One `res.sendStatus` / `res.status(..).json(..)` / `res.json(..)` call. -/
structure Send where
  code : Nat
  body : SendBody
deriving DecidableEq

/-- Everything a handler did to the Express response object. -/
structure Res where
  sends : List Send
  cookieCleared : Bool
  cookieSet : Option Token
deriving DecidableEq

/-- The status the client sees: the code of the first send. -/
def resStatus (r : Res) : Option Nat :=
  r.sends.head?.map (·.code)

/-- `prismaClient.user.findUnique({where: {email}})`. -/
def findUserByEmail (users : List User) (email : String) : Option User :=
  users.find? (fun u => u.email = email)

/-- `prismaClient.refreshToken.findUnique({where: {token}})`. -/
def findSession (store : List Session) (t : Token) : Option Session :=
  store.find? (fun sess => sess.token = t)

/-- `prismaClient.refreshToken.delete({where: {token}})`. -/
def deleteByToken (store : List Session) (t : Token) : List Session :=
  store.filter (fun sess => sess.token ≠ t)

/-- `prismaClient.refreshToken.deleteMany({where: {userId}})`. -/
def deleteAllByOwner (store : List Session) (uid : Nat) : List Session :=
  store.filter (fun sess => sess.userId ≠ uid)

/-- `argon2.hash` (external collaborator, abstracted to its interface). -/
def argon2hash (pw : String) : String := pw

/-- `argon2.verify(hash, password)` (external collaborator). -/
def argon2verify (hash pw : String) : Bool := hash = pw

/-- JS falsiness of a possibly-missing request-body string
(`!username || !email || !password`): absent or empty. -/
def isBlank : Option String → Bool
  | none => true
  | some s => s = ""

/-- Minting a signed token for `userId` from fresh entropy `nonce`. -/
def mkToken (userId nonce : Nat) : Token :=
  ⟨userId, nonce, true⟩

/-- `createAccessToken(userId)` from `generateTokens.util`. -/
def createAccessToken (userId nonce : Nat) : Token :=
  mkToken userId nonce

/-- `createRefreshToken(userId)` from `generateTokens.util`. -/
def createRefreshToken (userId nonce : Nat) : Token :=
  mkToken userId nonce

/-- `jwt.verify(token, REFRESH_TOKEN_SECRET, cb)`: on success the callback
receives the payload whose `userId` is the subject id; on failure, `err`. -/
def verifyToken (t : Token) : Option Nat :=
  if t.valid then some t.userId else none

/-- `handleSingUp` (sic), lines 36-85 of the source. -/
def handleSingUp (s : State) (username email password : Option String) :
    State × Res :=
  if isBlank username || isBlank email || isBlank password then
    (s, ⟨[⟨400, .msg "Username, email and password are required!"⟩], false, none⟩)
  else
    let e := email.getD ""
    match findUserByEmail s.users e with
    | some _ => (s, ⟨[⟨409, .empty⟩], false, none⟩)
    | none =>
      let hashedPassword := argon2hash (password.getD "")
      let newUser : User := ⟨s.ctr, username.getD "", e, hashedPassword, false⟩
      let evTok : EmailVerificationToken := ⟨s.ctr + 1, newUser.id⟩
      ({ s with
          users := newUser :: s.users
          emailTokens := evTok :: s.emailTokens
          sentEmails := (e, evTok.token) :: s.sentEmails
          ctr := s.ctr + 2 },
       ⟨[⟨201, .msg "New user created"⟩], false, none⟩)

/-- The cookie block of `handleLogin` (source lines 130-153): given a present
cookie, wipe all sessions of the logging-in user when the token of the cookie is
absent from the store or owned by someone else, otherwise delete just that
one session. -/
def loginCookieStore (s : State) (user : User) : Option Token → List Session
  | none => s.store
  | some jid =>
    match findSession s.store jid with
    | none => deleteAllByOwner s.store user.id
    | some checkRefreshToken =>
      if checkRefreshToken.userId ≠ user.id then
        deleteAllByOwner s.store user.id
      else
        deleteByToken s.store jid

/-- `handleLogin`, lines 93-191 of the source.  The unverified-email branch
(source line 117) is `res.send(httpStatus.UNAUTHORIZED).json(...)`: in
Express 4 `res.send(401)` flushes a 401 response, and the chained `.json`
then throws ERR_HTTP_HEADERS_SENT — outside the `try` that starts at line
123 — so the handler aborts right there: the client sees the 401 (without
the intended JSON message body) and neither the password check nor any
store mutation is ever reached.  The refresh cookie is cleared exactly when
a cookie was presented (source line 156, inside the `if (cookies?.jid)`
block). -/
def handleLogin (s : State) (email password : Option String)
    (cookieJid : Option Token) : State × Res :=
  if isBlank email || isBlank password then
    (s, ⟨[⟨400, .msg "Email and password are required!"⟩], false, none⟩)
  else
    match findUserByEmail s.users (email.getD "") with
    | none => (s, ⟨[⟨401, .empty⟩], false, none⟩)
    | some user =>
      if user.emailVerified = false then
        (s, ⟨[⟨401, .empty⟩], false, none⟩)
      else if argon2verify user.password (password.getD "") then
        let accessToken := createAccessToken user.id s.ctr
        let newRefreshToken := createRefreshToken user.id (s.ctr + 1)
        ({ s with
            store := ⟨newRefreshToken, user.id⟩ :: loginCookieStore s user cookieJid
            ctr := s.ctr + 2 },
         ⟨[⟨200, .token accessToken⟩], cookieJid.isSome, some newRefreshToken⟩)
      else
        (s, ⟨[⟨401, .empty⟩], false, none⟩)

/-- `handleLogout`, lines 199-228 of the source. -/
def handleLogout (s : State) (cookieJid : Option Token) : State × Res :=
  match cookieJid with
  | none => (s, ⟨[⟨204, .empty⟩], false, none⟩)
  | some refreshToken =>
    match findSession s.store refreshToken with
    | none => (s, ⟨[⟨204, .empty⟩], true, none⟩)
    | some _ =>
      ({ s with store := deleteByToken s.store refreshToken },
       ⟨[⟨204, .empty⟩], true, none⟩)

/-- `handleRefresh`, lines 236-316 of the source.  `insertFails` is the
choice, by the environment, of whether `refreshToken.create` rejects; the source
catches that rejection, logs it, and continues to set the cookie and send the
access token.  In the reuse branch on a verification error both the callback
and the outer code send 403, hence the double send there. -/
def handleRefresh (s : State) (cookieTok : Option Token) (insertFails : Bool) :
    State × Res :=
  match cookieTok with
  | none => (s, ⟨[⟨401, .empty⟩], false, none⟩)
  | some refreshToken =>
    match findSession s.store refreshToken with
    | none =>
      match verifyToken refreshToken with
      | none => (s, ⟨[⟨403, .empty⟩, ⟨403, .empty⟩], true, none⟩)
      | some uid =>
        ({ s with store := deleteAllByOwner s.store uid },
         ⟨[⟨403, .empty⟩], true, none⟩)
    | some foundRefreshToken =>
      let store1 := deleteByToken s.store refreshToken
      match verifyToken refreshToken with
      | none => ({ s with store := store1 }, ⟨[⟨403, .empty⟩], true, none⟩)
      | some uid =>
        if foundRefreshToken.userId ≠ uid then
          ({ s with store := store1 }, ⟨[⟨403, .empty⟩], true, none⟩)
        else
          let accessToken := createAccessToken uid s.ctr
          let newRefreshToken := createRefreshToken uid (s.ctr + 1)
          let store2 :=
            if insertFails then store1 else ⟨newRefreshToken, uid⟩ :: store1
          ({ s with store := store2, ctr := s.ctr + 2 },
           ⟨[⟨200, .token accessToken⟩], true, some newRefreshToken⟩)

/-- One client-visible operation against the service. -/
inductive Op
  | signup (username email password : Option String)
  | login (email password : Option String) (cookie : Option Token)
  | refresh (cookie : Option Token) (insertFails : Bool)
  | logout (cookie : Option Token)

/-- Execute one operation. -/
def step (s : State) : Op → State × Res
  | .signup u e p => handleSingUp s u e p
  | .login e p c => handleLogin s e p c
  | .refresh c f => handleRefresh s c f
  | .logout c => handleLogout s c

/-- Execute a sequence of operations, keeping the final state. -/
def run (s : State) (l : List Op) : State :=
  l.foldl (fun st op => (step st op).1) s

/-- Store well-formedness: the token of every stored session was minted from
entropy drawn before the current counter value. -/
def WF (s : State) : Prop :=
  ∀ sess ∈ s.store, sess.token.nonce < s.ctr

/-- A token that can never again be presented successfully: its entropy is in
the past of the counter and it is absent from the store. -/
def Absent (T : Token) (s : State) : Prop :=
  T.nonce < s.ctr ∧ ∀ sess ∈ s.store, sess.token ≠ T

/- Concrete inputs used in evaluations and witnesses. -/

/-- A live refresh token of user 1. -/
def tOne : Token := ⟨1, 0, true⟩

/-- A state whose store holds exactly the session of `tOne`. -/
def sRef : State := ⟨[], [⟨tOne, 1⟩], [], [], 1⟩

/-- A user whose email is not verified; the modelled hash of "pw". -/
def userUnverified : User := ⟨1, "u", "a", "pw", false⟩

/-- A state with only the unverified user and an empty store. -/
def sUnv : State := ⟨[userUnverified], [], [], [], 5⟩

/-- Verified user A. -/
def userA : User := ⟨1, "a", "ae", "pa", true⟩

/-- Verified user B. -/
def userB : User := ⟨2, "b", "be", "pb", true⟩

/-- A refresh token of user B, live in `sAB`. -/
def tokB : Token := ⟨2, 0, true⟩

/-- A refresh token of user A, live in `sAB`. -/
def tokA2 : Token := ⟨1, 1, true⟩

/-- A state with users A and B and one live session each. -/
def sAB : State := ⟨[userA, userB], [⟨tokB, 2⟩, ⟨tokA2, 1⟩], [], [], 2⟩

/-- A token that appears in no store. -/
def tokGhost : Token := ⟨9, 0, true⟩

/-- An expired/forged token: `jwt.verify` fails on it. -/
def tokBad : Token := ⟨7, 0, false⟩

theorem run_nil (s : State) : run s [] = s := rfl

theorem run_cons (s : State) (op : Op) (l : List Op) :
    run s (op :: l) = run (step s op).1 l := rfl

theorem mem_deleteAllByOwner {store : List Session} {uid : Nat} {sess : Session} :
    sess ∈ deleteAllByOwner store uid ↔ sess ∈ store ∧ sess.userId ≠ uid := by
  simp [deleteAllByOwner]

theorem mem_deleteByToken {store : List Session} {t : Token} {sess : Session} :
    sess ∈ deleteByToken store t ↔ sess ∈ store ∧ sess.token ≠ t := by
  simp [deleteByToken]

theorem findSession_eq_none_iff {store : List Session} {t : Token} :
    findSession store t = none ↔ ∀ sess ∈ store, sess.token ≠ t := by
  simp [findSession, List.find?_eq_none]

theorem findSession_some {store : List Session} {t : Token} {sess : Session}
    (h : findSession store t = some sess) : sess ∈ store ∧ sess.token = t := by
  refine ⟨List.mem_of_find?_eq_some h, ?_⟩
  simpa using List.find?_some h

theorem verifyToken_some {t : Token} {uid : Nat} (h : verifyToken t = some uid) :
    t.valid = true ∧ uid = t.userId := by
  cases hval : t.valid with
  | false => simp [verifyToken, hval] at h
  | true => simp [verifyToken, hval] at h; exact ⟨rfl, h.symm⟩

theorem verifyToken_of_valid {t : Token} (h : t.valid = true) :
    verifyToken t = some t.userId := by
  simp [verifyToken, h]

theorem verifyToken_of_invalid {t : Token} (h : t.valid = false) :
    verifyToken t = none := by
  simp [verifyToken, h]

theorem loginCookieStore_subset (s : State) (user : User) (c : Option Token)
    {sess : Session} (h : sess ∈ loginCookieStore s user c) : sess ∈ s.store := by
  cases c with
  | none => exact h
  | some jid =>
    cases hf : findSession s.store jid with
    | none =>
      simp only [loginCookieStore, hf] at h
      exact (mem_deleteAllByOwner.mp h).1
    | some rt =>
      simp only [loginCookieStore, hf] at h
      by_cases hrt : rt.userId ≠ user.id
      · rw [if_pos hrt] at h
        exact (mem_deleteAllByOwner.mp h).1
      · rw [if_neg hrt] at h
        exact (mem_deleteByToken.mp h).1

theorem absent_handleSingUp (s : State) (u e p : Option String) (T : Token)
    (h : Absent T s) : Absent T (handleSingUp s u e p).1 := by
  obtain ⟨hn, ha⟩ := h
  unfold handleSingUp
  split
  · exact ⟨hn, ha⟩
  · cases hf : findUserByEmail s.users (e.getD "") with
    | some _ => simp only [hf]; exact ⟨hn, ha⟩
    | none =>
      simp only [hf]
      exact ⟨Nat.lt_succ_of_lt (Nat.lt_succ_of_lt hn), ha⟩

theorem absent_handleLogin (s : State) (e p : Option String) (c : Option Token)
    (T : Token) (h : Absent T s) : Absent T (handleLogin s e p c).1 := by
  obtain ⟨hn, ha⟩ := h
  unfold handleLogin
  split
  · exact ⟨hn, ha⟩
  · cases hf : findUserByEmail s.users (e.getD "") with
    | none => simp only [hf]; exact ⟨hn, ha⟩
    | some user =>
      simp only [hf]
      split
      · exact ⟨hn, ha⟩
      · split
        · refine ⟨Nat.lt_succ_of_lt (Nat.lt_succ_of_lt hn), ?_⟩
          intro sess hmem
          simp only [List.mem_cons] at hmem
          rcases hmem with rfl | hmem
          · intro hEq
            have hTn : T.nonce = s.ctr + 1 := by
              rw [← hEq]
              rfl
            omega
          · exact ha sess (loginCookieStore_subset s user c hmem)
        · exact ⟨hn, ha⟩

theorem absent_handleLogout (s : State) (c : Option Token) (T : Token)
    (h : Absent T s) : Absent T (handleLogout s c).1 := by
  obtain ⟨hn, ha⟩ := h
  cases c with
  | none => exact ⟨hn, ha⟩
  | some t =>
    unfold handleLogout
    cases hf : findSession s.store t with
    | none => simp only [hf]; exact ⟨hn, ha⟩
    | some sess =>
      simp only [hf]
      exact ⟨hn, fun x hx => ha x (mem_deleteByToken.mp hx).1⟩

theorem absent_handleRefresh (s : State) (c : Option Token) (f : Bool) (T : Token)
    (h : Absent T s) : Absent T (handleRefresh s c f).1 := by
  obtain ⟨hn, ha⟩ := h
  cases c with
  | none => exact ⟨hn, ha⟩
  | some t =>
    unfold handleRefresh
    cases hf : findSession s.store t with
    | none =>
      simp only [hf]
      cases hv : verifyToken t with
      | none => exact ⟨hn, ha⟩
      | some uid =>
        exact ⟨hn, fun x hx => ha x (mem_deleteAllByOwner.mp hx).1⟩
    | some found =>
      simp only [hf]
      cases hv : verifyToken t with
      | none =>
        exact ⟨hn, fun x hx => ha x (mem_deleteByToken.mp hx).1⟩
      | some uid =>
        dsimp only
        by_cases hm : found.userId ≠ uid
        · rw [if_pos hm]
          exact ⟨hn, fun x hx => ha x (mem_deleteByToken.mp hx).1⟩
        · rw [if_neg hm]
          refine ⟨Nat.lt_succ_of_lt (Nat.lt_succ_of_lt hn), ?_⟩
          intro sess hmem
          have hmem2 : sess ∈ (if f = true then deleteByToken s.store t
              else ⟨createRefreshToken uid (s.ctr + 1), uid⟩ :: deleteByToken s.store t) :=
            hmem
          cases f with
          | true =>
            rw [if_pos rfl] at hmem2
            exact ha sess (mem_deleteByToken.mp hmem2).1
          | false =>
            rw [if_neg Bool.false_ne_true] at hmem2
            simp only [List.mem_cons] at hmem2
            rcases hmem2 with rfl | hmem2
            · intro hEq
              have hTn : T.nonce = s.ctr + 1 := by
                rw [← hEq]
                rfl
              omega
            · exact ha sess (mem_deleteByToken.mp hmem2).1

theorem absent_step (s : State) (op : Op) (T : Token) (h : Absent T s) :
    Absent T (step s op).1 := by
  cases op with
  | signup u e p => exact absent_handleSingUp s u e p T h
  | login e p c => exact absent_handleLogin s e p c T h
  | refresh c f => exact absent_handleRefresh s c f T h
  | logout c => exact absent_handleLogout s c T h

theorem absent_run (s : State) (l : List Op) (T : Token) (h : Absent T s) :
    Absent T (run s l) := by
  induction l generalizing s with
  | nil => exact h
  | cons op l ih =>
    rw [run_cons]
    exact ih _ (absent_step s op T h)

theorem refresh_success_inv (s : State) (T : Token) (f : Bool)
    (hok : resStatus (handleRefresh s (some T) f).2 = some 200) :
    ∃ found, findSession s.store T = some found ∧
      T.valid = true ∧ found.userId = T.userId := by
  cases hfind : findSession s.store T with
  | none =>
    cases hv : verifyToken T with
    | none => simp [handleRefresh, hfind, hv, resStatus] at hok
    | some uid => simp [handleRefresh, hfind, hv, resStatus] at hok
  | some found =>
    cases hv : verifyToken T with
    | none => simp [handleRefresh, hfind, hv, resStatus] at hok
    | some uid =>
      obtain ⟨hval, huid⟩ := verifyToken_some hv
      by_cases hm : found.userId ≠ uid
      · simp [handleRefresh, hfind, hv, resStatus, hm] at hok
      · push_neg at hm
        exact ⟨found, rfl, hval, by rw [hm, huid]⟩

theorem refresh_success_eq (s : State) (T : Token) (f : Bool) (found : Session)
    (hfind : findSession s.store T = some found) (hval : T.valid = true)
    (hm : found.userId = T.userId) :
    handleRefresh s (some T) f =
      ({ s with
          store := if f = true then deleteByToken s.store T
            else ⟨createRefreshToken T.userId (s.ctr + 1), T.userId⟩ :: deleteByToken s.store T
          ctr := s.ctr + 2 },
       ⟨[⟨200, .token (createAccessToken T.userId s.ctr)⟩], true,
        some (createRefreshToken T.userId (s.ctr + 1))⟩) := by
  have hv := verifyToken_of_valid hval
  simp [handleRefresh, hfind, hv, hm]

/-- C4: once a refresh token has been successfully used in `refresh`, any
later refresh call presenting the same token, after any sequence of further
operations, fails with Forbidden (its only send is the 403, so no access
token is returned) and deletes all sessions owned by the owner of that
token; a consumed token never again yields a successful rotation. -/
theorem refresh_single_use (s₀ : State) (T : Token) (f : Bool) (l : List Op) (f' : Bool)
    (hwf : WF s₀)
    (hok : resStatus (handleRefresh s₀ (some T) f).2 = some 200) :
    (handleRefresh (run (handleRefresh s₀ (some T) f).1 l) (some T) f').2.sends
        = [⟨403, SendBody.empty⟩] ∧
    (handleRefresh (run (handleRefresh s₀ (some T) f).1 l) (some T) f').1.store
        = deleteAllByOwner (run (handleRefresh s₀ (some T) f).1 l).store T.userId := by
  obtain ⟨found, hfind, hval, hm⟩ := refresh_success_inv s₀ T f hok
  have hTn : T.nonce < s₀.ctr := by
    obtain ⟨hmem, htok⟩ := findSession_some hfind
    have hb := hwf found hmem
    rw [htok] at hb
    exact hb
  have habs1 : Absent T (handleRefresh s₀ (some T) f).1 := by
    rw [refresh_success_eq s₀ T f found hfind hval hm]
    refine ⟨Nat.lt_succ_of_lt (Nat.lt_succ_of_lt hTn), ?_⟩
    intro sess hmem
    have hmem2 : sess ∈ (if f = true then deleteByToken s₀.store T
        else ⟨createRefreshToken T.userId (s₀.ctr + 1), T.userId⟩ ::
          deleteByToken s₀.store T) := hmem
    cases f with
    | true =>
      rw [if_pos rfl] at hmem2
      exact (mem_deleteByToken.mp hmem2).2
    | false =>
      rw [if_neg Bool.false_ne_true] at hmem2
      simp only [List.mem_cons] at hmem2
      rcases hmem2 with rfl | hmem2
      · intro hEq
        have hTn2 : T.nonce = s₀.ctr + 1 := by
          rw [← hEq]
          rfl
        omega
      · exact (mem_deleteByToken.mp hmem2).2
  have habs2 := absent_run _ l T habs1
  have hfind2 : findSession (run (handleRefresh s₀ (some T) f).1 l).store T = none :=
    findSession_eq_none_iff.mpr habs2.2
  have hv2 := verifyToken_of_valid hval
  revert hfind2
  generalize run (handleRefresh s₀ (some T) f).1 l = s2
  intro hfind2
  constructor
  · simp [handleRefresh, hfind2, hv2]
  · simp [handleRefresh, hfind2, hv2]

theorem findSession_deleteByToken (store : List Session) (t : Token) :
    findSession (deleteByToken store t) t = none := by
  rw [findSession_eq_none_iff]
  intro sess hmem
  exact (mem_deleteByToken.mp hmem).2

theorem refresh_found_invalid_eq (s : State) (T : Token) (f : Bool) (found : Session)
    (hfind : findSession s.store T = some found) (hval : T.valid = false) :
    handleRefresh s (some T) f =
      ({ s with store := deleteByToken s.store T },
       ⟨[⟨403, SendBody.empty⟩], true, none⟩) := by
  have hv := verifyToken_of_invalid hval
  simp [handleRefresh, hfind, hv]

theorem refresh_found_mismatch_eq (s : State) (T : Token) (f : Bool) (found : Session)
    (hfind : findSession s.store T = some found) (hval : T.valid = true)
    (hm : found.userId ≠ T.userId) :
    handleRefresh s (some T) f =
      ({ s with store := deleteByToken s.store T },
       ⟨[⟨403, SendBody.empty⟩], true, none⟩) := by
  have hv := verifyToken_of_valid hval
  simp [handleRefresh, hfind, hv, hm]

/-- C5: when the presented refresh token is found in the store, the found
session is consumed (it is gone from the resulting store on every branch,
including successful rotation), and if signature/expiry verification fails
or the subject id embedded in the token differs from the recorded owner of
the session, the call fails with Forbidden with the presented session
already consumed and no replacement minted. -/
theorem refresh_found_consumed_forbidden
    (s : State) (T : Token) (f : Bool) (found : Session)
    (hwf : WF s) (hfind : findSession s.store T = some found) :
    findSession (handleRefresh s (some T) f).1.store T = none ∧
    ((T.valid = false ∨ found.userId ≠ T.userId) →
      (handleRefresh s (some T) f).2.sends = [⟨403, SendBody.empty⟩] ∧
      (handleRefresh s (some T) f).1.store = deleteByToken s.store T ∧
      (handleRefresh s (some T) f).2.cookieSet = none) := by
  have hTn : T.nonce < s.ctr := by
    obtain ⟨hmem, htok⟩ := findSession_some hfind
    have hb := hwf found hmem
    rw [htok] at hb
    exact hb
  constructor
  · rw [findSession_eq_none_iff]
    intro sess hmem
    cases hval : T.valid with
    | false =>
      rw [refresh_found_invalid_eq s T f found hfind hval] at hmem
      exact (mem_deleteByToken.mp hmem).2
    | true =>
      by_cases hm : found.userId = T.userId
      · rw [refresh_success_eq s T f found hfind hval hm] at hmem
        have hmem2 : sess ∈ (if f = true then deleteByToken s.store T
            else ⟨createRefreshToken T.userId (s.ctr + 1), T.userId⟩ ::
              deleteByToken s.store T) := hmem
        cases f with
        | true =>
          rw [if_pos rfl] at hmem2
          exact (mem_deleteByToken.mp hmem2).2
        | false =>
          rw [if_neg Bool.false_ne_true] at hmem2
          simp only [List.mem_cons] at hmem2
          rcases hmem2 with rfl | hmem2
          · intro hEq
            have hTn2 : T.nonce = s.ctr + 1 := by
              rw [← hEq]
              rfl
            omega
          · exact (mem_deleteByToken.mp hmem2).2
      · rw [refresh_found_mismatch_eq s T f found hfind hval hm] at hmem
        exact (mem_deleteByToken.mp hmem).2
  · intro hfail
    have heq : handleRefresh s (some T) f =
        ({ s with store := deleteByToken s.store T },
         ⟨[⟨403, SendBody.empty⟩], true, none⟩) := by
      cases hval : T.valid with
      | false => exact refresh_found_invalid_eq s T f found hfind hval
      | true =>
        rcases hfail with hfail | hm
        · rw [hval] at hfail
          exact absurd hfail (by simp)
        · exact refresh_found_mismatch_eq s T f found hfind hval hm
    rw [heq]
    exact ⟨rfl, rfl, rfl⟩

/-- C5 witness: a live but unverifiable token found in the store is consumed
and refused with Forbidden. -/
theorem refresh_found_consumed_forbidden_witness :
    findSession (handleRefresh ⟨[], [⟨tokBad, 7⟩], [], [], 1⟩ (some tokBad) false).1.store
        tokBad = none ∧
    ((tokBad.valid = false ∨ (⟨tokBad, 7⟩ : Session).userId ≠ tokBad.userId) →
      (handleRefresh ⟨[], [⟨tokBad, 7⟩], [], [], 1⟩ (some tokBad) false).2.sends
          = [⟨403, SendBody.empty⟩] ∧
      (handleRefresh ⟨[], [⟨tokBad, 7⟩], [], [], 1⟩ (some tokBad) false).1.store
          = deleteByToken [⟨tokBad, 7⟩] tokBad ∧
      (handleRefresh ⟨[], [⟨tokBad, 7⟩], [], [], 1⟩ (some tokBad) false).2.cookieSet = none) :=
  refresh_found_consumed_forbidden ⟨[], [⟨tokBad, 7⟩], [], [], 1⟩ tokBad false ⟨tokBad, 7⟩
    (by unfold WF; decide) (by decide)

/-- C4 witness: concretely, once `tOne` is rotated, replaying it is refused
with a single Forbidden send and wipes the owner of `tOne`. -/
theorem refresh_single_use_witness :
    (handleRefresh (run (handleRefresh sRef (some tOne) false).1 []) (some tOne) false).2.sends
        = [⟨403, SendBody.empty⟩] ∧
    (handleRefresh (run (handleRefresh sRef (some tOne) false).1 []) (some tOne) false).1.store
        = deleteAllByOwner (run (handleRefresh sRef (some tOne) false).1 []).store
            tOne.userId :=
  refresh_single_use sRef tOne false [] false (by unfold WF; decide) (by decide)

/-- C9: a refresh call that succeeds sets as the new cookie exactly the
freshly minted refresh token, and that token is different from the token
that was presented. -/
theorem refresh_rotates_fresh_token (s : State) (T : Token) (f : Bool)
    (hwf : WF s)
    (hok : resStatus (handleRefresh s (some T) f).2 = some 200) :
    (handleRefresh s (some T) f).2.cookieSet
        = some (createRefreshToken T.userId (s.ctr + 1)) ∧
    createRefreshToken T.userId (s.ctr + 1) ≠ T := by
  obtain ⟨found, hfind, hval, hm⟩ := refresh_success_inv s T f hok
  have hTn : T.nonce < s.ctr := by
    obtain ⟨hmem, htok⟩ := findSession_some hfind
    have hb := hwf found hmem
    rw [htok] at hb
    exact hb
  constructor
  · rw [refresh_success_eq s T f found hfind hval hm]
  · intro hEq
    have hTn2 : T.nonce = s.ctr + 1 := by
      rw [← hEq]
      rfl
    omega

/-- C9 witness: rotating `tOne` in `sRef` returns a cookie token distinct
from `tOne`. -/
theorem refresh_rotates_fresh_token_witness :
    (handleRefresh sRef (some tOne) false).2.cookieSet
        = some (createRefreshToken tOne.userId (sRef.ctr + 1)) ∧
    createRefreshToken tOne.userId (sRef.ctr + 1) ≠ tOne :=
  refresh_rotates_fresh_token sRef tOne false (by unfold WF; decide) (by decide)

/-- C7: a refresh call whose token is neither in the store nor verifiable
fails with Forbidden like a verified replay does, leaves the entire state
unchanged (no session is deleted, the bulk wipe is skipped), and sends no
access token (both sends are the bare 403). -/
theorem refresh_unknown_invalid_forbidden_no_wipe (s : State) (T : Token) (f : Bool)
    (hfind : findSession s.store T = none) (hval : T.valid = false) :
    resStatus (handleRefresh s (some T) f).2 = some 403 ∧
    (handleRefresh s (some T) f).1 = s ∧
    (handleRefresh s (some T) f).2.sends
        = [⟨403, SendBody.empty⟩, ⟨403, SendBody.empty⟩] ∧
    (handleRefresh s (some T) f).2.cookieSet = none := by
  have hv := verifyToken_of_invalid hval
  refine ⟨?_, ?_, ?_, ?_⟩ <;> simp [handleRefresh, hfind, hv, resStatus]

/-- C7 witness: an unknown, unverifiable token is refused with Forbidden and
the state of `sRef` is untouched. -/
theorem refresh_unknown_invalid_forbidden_no_wipe_witness :
    resStatus (handleRefresh sRef (some tokBad) false).2 = some 403 ∧
    (handleRefresh sRef (some tokBad) false).1 = sRef ∧
    (handleRefresh sRef (some tokBad) false).2.sends
        = [⟨403, SendBody.empty⟩, ⟨403, SendBody.empty⟩] ∧
    (handleRefresh sRef (some tokBad) false).2.cookieSet = none :=
  refresh_unknown_invalid_forbidden_no_wipe sRef tokBad false (by decide) (by decide)

/-- C8: logout always answers 204 and never errors; with no cookie it is a
pure no-op, with a cookie it clears the cookie and the resulting store is
exactly the old store minus the one presented token (so no other session is
ever deleted and an absent token is a no-op on the store), and running
logout twice with the same token leaves the state of the first call
untouched the second time. -/
theorem logout_idempotent_no_bulk (s : State) (t : Token) :
    resStatus (handleLogout s none).2 = some 204 ∧
    (handleLogout s none).1 = s ∧
    resStatus (handleLogout s (some t)).2 = some 204 ∧
    (handleLogout s (some t)).2.cookieCleared = true ∧
    (handleLogout s (some t)).1.store = deleteByToken s.store t ∧
    (handleLogout (handleLogout s (some t)).1 (some t)).1 = (handleLogout s (some t)).1 := by
  refine ⟨rfl, rfl, ?_, ?_, ?_, ?_⟩
  · cases hf : findSession s.store t <;> simp [handleLogout, hf, resStatus]
  · cases hf : findSession s.store t <;> simp [handleLogout, hf]
  · cases hf : findSession s.store t with
    | none =>
      simp only [handleLogout, hf]
      have hall := findSession_eq_none_iff.mp hf
      exact (List.filter_eq_self.mpr (fun a ha => decide_eq_true (hall a ha))).symm
    | some sess => simp [handleLogout, hf, deleteByToken]
  · cases hf : findSession s.store t with
    | none => simp [handleLogout, hf]
    | some sess =>
      have hf2 : findSession (deleteByToken s.store t) t = none :=
        findSession_deleteByToken s.store t
      simp [handleLogout, hf, hf2]

/-- C8 witness: the logout properties at the concrete state `sAB` with the
live token `tokB`. -/
theorem logout_idempotent_no_bulk_witness :
    resStatus (handleLogout sAB none).2 = some 204 ∧
    (handleLogout sAB none).1 = sAB ∧
    resStatus (handleLogout sAB (some tokB)).2 = some 204 ∧
    (handleLogout sAB (some tokB)).2.cookieCleared = true ∧
    (handleLogout sAB (some tokB)).1.store = deleteByToken sAB.store tokB ∧
    (handleLogout (handleLogout sAB (some tokB)).1 (some tokB)).1
        = (handleLogout sAB (some tokB)).1 :=
  logout_idempotent_no_bulk sAB tokB

theorem login_success_eq (s : State) (e p : String) (c : Option Token) (user : User)
    (he : e ≠ "") (hp : p ≠ "")
    (hu : findUserByEmail s.users e = some user)
    (hver : user.emailVerified = true)
    (hpw : argon2verify user.password p = true) :
    handleLogin s (some e) (some p) c =
      ({ s with
          store := ⟨createRefreshToken user.id (s.ctr + 1), user.id⟩ ::
            loginCookieStore s user c
          ctr := s.ctr + 2 },
       ⟨[⟨200, .token (createAccessToken user.id s.ctr)⟩], c.isSome,
        some (createRefreshToken user.id (s.ctr + 1))⟩) := by
  have hbe : isBlank (some e) = false := by simp [isBlank, he]
  have hbp : isBlank (some p) = false := by simp [isBlank, hp]
  simp [handleLogin, hbe, hbp, hu, hver, hpw]

/-- C6: a successful login of a verified user that presents a refresh
cookie which is absent from the store or owned by a different user wipes
all sessions owned by the logging-in user, clears the cookie, and only then
issues the fresh session pair (the new session sits on top of the wiped
store, the new refresh token goes into the cookie, the access token is the
only response body). -/
theorem login_suspicious_cookie_defensive_wipe
    (s : State) (e p : String) (jid : Token) (user : User)
    (he : e ≠ "") (hp : p ≠ "")
    (hu : findUserByEmail s.users e = some user)
    (hver : user.emailVerified = true)
    (hpw : argon2verify user.password p = true)
    (hsusp : findSession s.store jid = none ∨
      ∃ rt, findSession s.store jid = some rt ∧ rt.userId ≠ user.id) :
    (handleLogin s (some e) (some p) (some jid)).1.store =
      ⟨createRefreshToken user.id (s.ctr + 1), user.id⟩ ::
        deleteAllByOwner s.store user.id ∧
    (handleLogin s (some e) (some p) (some jid)).2.cookieCleared = true ∧
    (handleLogin s (some e) (some p) (some jid)).2.cookieSet =
      some (createRefreshToken user.id (s.ctr + 1)) ∧
    (handleLogin s (some e) (some p) (some jid)).2.sends =
      [⟨200, SendBody.token (createAccessToken user.id s.ctr)⟩] := by
  have hstore : loginCookieStore s user (some jid) = deleteAllByOwner s.store user.id := by
    rcases hsusp with hnone | ⟨rt, hrt, hne⟩
    · simp [loginCookieStore, hnone]
    · simp [loginCookieStore, hrt, hne]
  rw [login_success_eq s e p (some jid) user he hp hu hver hpw, hstore]
  exact ⟨rfl, rfl, rfl, rfl⟩

/-- C6 witness: user A logging in with a cookie token that is in no store
row gets the defensive wipe of the A sessions, a cleared cookie, and a
fresh pair. -/
theorem login_suspicious_cookie_defensive_wipe_witness :
    (handleLogin sAB (some "ae") (some "pa") (some tokGhost)).1.store =
      ⟨createRefreshToken userA.id (sAB.ctr + 1), userA.id⟩ ::
        deleteAllByOwner sAB.store userA.id ∧
    (handleLogin sAB (some "ae") (some "pa") (some tokGhost)).2.cookieCleared = true ∧
    (handleLogin sAB (some "ae") (some "pa") (some tokGhost)).2.cookieSet =
      some (createRefreshToken userA.id (sAB.ctr + 1)) ∧
    (handleLogin sAB (some "ae") (some "pa") (some tokGhost)).2.sends =
      [⟨200, SendBody.token (createAccessToken userA.id sAB.ctr)⟩] :=
  login_suspicious_cookie_defensive_wipe sAB "ae" "pa" tokGhost userA
    (by decide) (by decide) (by decide) (by decide) (by decide) (Or.inl (by decide))

/-- C3 counterexample: logging in as user A (id 1) while presenting the
cookie `tokB` owned by user B (id 2) leaves the session of B in the store
and deletes the pre-existing session of A — the exact opposite of the claim
that all sessions of B are wiped and none of A are. -/
theorem login_foreign_cookie_wipes_wrong_user :
    (⟨tokB, 2⟩ : Session) ∈ (handleLogin sAB (some "ae") (some "pa") (some tokB)).1.store ∧
    (⟨tokA2, 1⟩ : Session) ∉ (handleLogin sAB (some "ae") (some "pa") (some tokB)).1.store := by
  decide

/-- C3 (amended): a successful login by user A presenting a refresh cookie
whose session is owned by a different user B wipes all sessions of A (the
logging-in user), deletes no session of B, and hands A a fresh valid
access/refresh pair. -/
theorem login_foreign_cookie_wipes_self
    (s : State) (e p : String) (jid : Token) (user : User) (rt : Session)
    (he : e ≠ "") (hp : p ≠ "")
    (hu : findUserByEmail s.users e = some user)
    (hver : user.emailVerified = true)
    (hpw : argon2verify user.password p = true)
    (hrt : findSession s.store jid = some rt)
    (hforeign : rt.userId ≠ user.id) :
    (handleLogin s (some e) (some p) (some jid)).1.store =
      ⟨createRefreshToken user.id (s.ctr + 1), user.id⟩ ::
        deleteAllByOwner s.store user.id ∧
    s.store.filter (fun sess => sess.userId = rt.userId) ⊆
      (handleLogin s (some e) (some p) (some jid)).1.store ∧
    (handleLogin s (some e) (some p) (some jid)).2.cookieSet =
      some (createRefreshToken user.id (s.ctr + 1)) ∧
    (handleLogin s (some e) (some p) (some jid)).2.sends =
      [⟨200, SendBody.token (createAccessToken user.id s.ctr)⟩] := by
  have hsto :=
    login_suspicious_cookie_defensive_wipe s e p jid user he hp hu hver hpw
      (Or.inr ⟨rt, hrt, hforeign⟩)
  refine ⟨hsto.1, ?_, hsto.2.2.1, hsto.2.2.2⟩
  intro sess hmem
  rw [hsto.1]
  simp only [List.mem_filter, decide_eq_true_eq] at hmem
  refine List.mem_cons_of_mem _ (mem_deleteAllByOwner.mpr ⟨hmem.1, ?_⟩)
  rw [hmem.2]
  exact hforeign

/-- C3 witness for the amended claim: at `sAB`, user A logging in with the
cookie of B keeps the session of B and receives a fresh pair. -/
theorem login_foreign_cookie_wipes_self_witness :
    (handleLogin sAB (some "ae") (some "pa") (some tokB)).1.store =
      ⟨createRefreshToken userA.id (sAB.ctr + 1), userA.id⟩ ::
        deleteAllByOwner sAB.store userA.id ∧
    sAB.store.filter (fun sess => sess.userId = (⟨tokB, 2⟩ : Session).userId) ⊆
      (handleLogin sAB (some "ae") (some "pa") (some tokB)).1.store ∧
    (handleLogin sAB (some "ae") (some "pa") (some tokB)).2.cookieSet =
      some (createRefreshToken userA.id (sAB.ctr + 1)) ∧
    (handleLogin sAB (some "ae") (some "pa") (some tokB)).2.sends =
      [⟨200, SendBody.token (createAccessToken userA.id sAB.ctr)⟩] :=
  login_foreign_cookie_wipes_self sAB "ae" "pa" tokB userA ⟨tokB, 2⟩
    (by decide) (by decide) (by decide) (by decide) (by decide) (by decide) (by decide)

/-- C1 (code bug, evaluated): when the store insert of the newly minted
refresh session fails during rotation (`insertFails = true`), the handler
still answers 200, the response body carries the new access token, the new
refresh token is still put into the cookie, and the resulting store holds
no session at all — the access token is handed out although its paired
refresh session was not persisted, instead of failing with a 500-class
error. -/
theorem refresh_insert_failure_returns_token_bug :
    resStatus (handleRefresh sRef (some tOne) true).2 = some 200 ∧
    (handleRefresh sRef (some tOne) true).2.sends
        = [⟨200, SendBody.token (createAccessToken 1 1)⟩] ∧
    (handleRefresh sRef (some tOne) true).2.cookieSet
        = some (createRefreshToken 1 2) ∧
    (handleRefresh sRef (some tOne) true).1.store = [] := by
  decide

/-- C2: a login request for an existing user whose email is not verified
fails with Unauthorized (the flushed 401 is the only send, so no access
token is issued), sets no cookie, and leaves the entire state unchanged —
in particular no refresh-token session is inserted and none is deleted,
because the throw on the chained `.json` aborts the handler before the
password check. -/
theorem login_unverified_rejected
    (s : State) (e p : Option String) (c : Option Token) (user : User)
    (he : isBlank e = false) (hp : isBlank p = false)
    (hu : findUserByEmail s.users (e.getD "") = some user)
    (hver : user.emailVerified = false) :
    resStatus (handleLogin s e p c).2 = some 401 ∧
    (handleLogin s e p c).1 = s ∧
    (handleLogin s e p c).2.sends = [⟨401, SendBody.empty⟩] ∧
    (handleLogin s e p c).2.cookieSet = none := by
  refine ⟨?_, ?_, ?_, ?_⟩ <;> simp [handleLogin, he, hp, hu, hver, resStatus]

/-- C2 witness: the unverified user of `sUnv` presenting the correct
password is refused with a bare 401 and `sUnv` is untouched. -/
theorem login_unverified_rejected_witness :
    resStatus (handleLogin sUnv (some "a") (some "pw") none).2 = some 401 ∧
    (handleLogin sUnv (some "a") (some "pw") none).1 = sUnv ∧
    (handleLogin sUnv (some "a") (some "pw") none).2.sends = [⟨401, SendBody.empty⟩] ∧
    (handleLogin sUnv (some "a") (some "pw") none).2.cookieSet = none :=
  login_unverified_rejected sUnv (some "a") (some "pw") none userUnverified
    (by decide) (by decide) (by decide) (by decide)

/-- C10: a well-formed signup request whose email already belongs to an
existing user answers Conflict and leaves the whole state unchanged: no
user row, no email-verification token, no sent email. -/
theorem signup_duplicate_email_conflict
    (s : State) (u e p : Option String) (user : User)
    (hu : isBlank u = false) (he : isBlank e = false) (hp : isBlank p = false)
    (hfound : findUserByEmail s.users (e.getD "") = some user) :
    (handleSingUp s u e p).1 = s ∧
    (handleSingUp s u e p).2 = ⟨[⟨409, SendBody.empty⟩], false, none⟩ := by
  constructor <;> simp [handleSingUp, hu, he, hp, hfound]

/-- C10 witness: signing up again with the email of the existing user in
`sUnv` is refused with Conflict and mutates nothing. -/
theorem signup_duplicate_email_conflict_witness :
    (handleSingUp sUnv (some "x") (some "a") (some "q")).1 = sUnv ∧
    (handleSingUp sUnv (some "x") (some "a") (some "q")).2
        = ⟨[⟨409, SendBody.empty⟩], false, none⟩ :=
  signup_duplicate_email_conflict sUnv (some "x") (some "a") (some "q") userUnverified
    (by decide) (by decide) (by decide) (by decide)
